import Mathlib

/-!
Shallow embedding of the balance/utilization/projection engine of the
track-balances repository (the `calculateBalance`, `calculateCreditUtilization`,
`calculateProjections` and `monthsDifference` closures of the finance manager
component), together with theorems settling the specification claims.

JavaScript numbers are modelled by `ℚ` (exact arithmetic standing for the
float computations; the spec makes no precision guarantee beyond standard
floating point).  A JavaScript `Date` is modelled by its month index
`ym = getFullYear() * 12 + getMonth()` together with the remaining position
inside the month (`sub`, standing for day-of-month and time); timestamp
order coincides with lexicographic order on `(ym, sub)`.
-/

namespace TrackBalances

/-- A calendar instant.  `ym` is `year * 12 + month` (the JS `Date` month
index), `sub` the position within the month (day and time-of-day).  JS
timestamp comparison of valid dates is lexicographic comparison of
`(ym, sub)`. -/
structure Date where
  ym : Int
  sub : Nat
deriving DecidableEq

/-- `new Date(a) <= new Date(b)` on timestamps, i.e. lexicographic order. -/
def Date.leb (a b : Date) : Bool :=
  a.ym < b.ym || (a.ym == b.ym && a.sub ≤ b.sub)

/-- `monthsDifference` of the source:
`(end.getFullYear() - start.getFullYear()) * 12 + (end.getMonth() - start.getMonth())`,
which is exactly the difference of the month indices. -/
def monthsDifference (startDate endDate : Date) : Int :=
  endDate.ym - startDate.ym

/-- Binary `Math.min` on timestamps (ties keep the left argument; on a tie
both arguments are the same instant). -/
def Date.minD (a b : Date) : Date :=
  if Date.leb a b then a else b

/-- `Math.min(...list)` over a non-empty list of dates, as a left fold. -/
def minDateFold (d : Date) : List Date → Date
  | [] => d
  | x :: xs => minDateFold (Date.minD d x) xs

/-- Earliest date of a list of dates (`none` on the empty list), i.e.
`Math.min(...dates)` guarded by a non-emptiness check. -/
def earliestDate : List Date → Option Date
  | [] => none
  | d :: ds => some (minDateFold d ds)

/-- An account record.  `limit` is `Option ℚ` because loaded accounts need
not carry the field (`account.limit || 0` in the source); `apr` defaults
to `0` on the save path, so it is kept as a plain number. -/
structure Account where
  id : String
  name : String
  accountType : String
  limit : Option ℚ
  apr : ℚ
deriving DecidableEq

/-- A transaction record.  `type` is kept as an arbitrary string: the source
only ever compares it with the literal `'credit'`. -/
structure Transaction where
  id : String
  accountId : String
  amount : ℚ
  type : String
  date : Date
deriving DecidableEq

/-- Signed contribution of one transaction to the principal balance:
`t.type === 'credit' ? Number(t.amount) : -Number(t.amount)`. -/
def txSigned (t : Transaction) : ℚ :=
  if t.type = "credit" then t.amount else -t.amount

/-- The transactions the balance query looks at:
`t.accountId === accountId && new Date(t.date) <= date`. -/
def relevantTransactions (transactions : List Transaction)
    (accountId : String) (date : Date) : List Transaction :=
  transactions.filter (fun t => t.accountId == accountId && Date.leb t.date date)

/-- The `reduce` of the source: fold the signed amounts from `0`. -/
def principalBalance (txs : List Transaction) : ℚ :=
  txs.foldl (fun sum t => sum + txSigned t) 0

/-- `calculateBalance(accountId, date)` of the source.  The truthiness test
`account.apr` on a number means `apr ≠ 0` (ℚ has no NaN). -/
def calculateBalance (accounts : List Account) (transactions : List Transaction)
    (accountId : String) (date : Date) : ℚ :=
  match accounts.find? (fun a => a.id == accountId) with
  | none => 0
  | some account =>
    let rel := relevantTransactions transactions accountId date
    let balance := principalBalance rel
    if account.accountType = "credit" ∧ 0 < balance ∧ account.apr ≠ 0 then
      let monthsSinceFirstTransaction : Int :=
        match earliestDate (rel.map Transaction.date) with
        | none => 0
        | some d0 => monthsDifference d0 date
      let monthlyRate := account.apr / 100 / 12
      balance * (1 + monthlyRate) ^ monthsSinceFirstTransaction
    else balance

/-- Per-account contribution to `totalLimit`: `Number(account.limit || 0)`. -/
def limitContribution (a : Account) : ℚ := a.limit.getD 0

/-- `calculateCreditUtilization()` of the source, with the implicit "now"
of the default-argument `calculateBalance(account.id)` calls made explicit. -/
def calculateCreditUtilization (accounts : List Account)
    (transactions : List Transaction) (now : Date) : ℚ :=
  let creditAccounts := accounts.filter (fun a => a.accountType == "credit")
  let totalLimit := creditAccounts.foldl (fun sum a => sum + limitContribution a) 0
  if totalLimit = 0 then 0
  else
    let totalUsed := creditAccounts.foldl
      (fun sum a => sum + max 0 (calculateBalance accounts transactions a.id now)) 0
    (totalUsed / totalLimit) * 100

/-- `timeframe === '6m' ? 6 : timeframe === '1y' ? 12 : 24`. -/
def monthsOfTimeframe (timeframe : String) : Nat :=
  if timeframe = "6m" then 6 else if timeframe = "1y" then 12 else 24

/-- The month label of a projection row: `i === 0 ? 'Current' : 'Month i'`. -/
def monthLabel (i : Nat) : String :=
  if i = 0 then "Current" else "Month " ++ toString i

/-- One row of the projection time series. -/
structure MonthlyProjection where
  month : String
  balance : ℚ
  interest : ℚ
  minimumPayment : ℚ
  additionalPayment : ℚ
  totalPayment : ℚ
deriving DecidableEq

/-- The scenario payment policy: `baseMinPayment` for any scenario other
than `'aggressive'` / `'optimal'`, else the respective `max`. -/
def scenarioPayment (scenario : String) (baseMinPayment currentBalance : ℚ) : ℚ :=
  if scenario = "aggressive" then max baseMinPayment (currentBalance * 0.1)
  else if scenario = "optimal" then max baseMinPayment (currentBalance * 0.05)
  else baseMinPayment

/-- One iteration of the inner simulation loop on the state
`(currentBalance, totalInterest)`:
`interest = cb * rate; ti += interest; cb += interest - payment; if (cb < 0) cb = 0`. -/
def simStep (monthlyRate monthlyPayment : ℚ) (s : ℚ × ℚ) : ℚ × ℚ :=
  let interest := s.1 * monthlyRate
  let newBalance := s.1 + interest - monthlyPayment
  (if newBalance < 0 then 0 else newBalance, s.2 + interest)

/-- The body of the `relevantAccounts.forEach` of `calculateProjections`,
acting on the per-row accumulator
`(projectedBalance, totalInterest, minimumPayment, additionalPayment)`. -/
def projStep (accounts : List Account) (transactions : List Transaction)
    (now : Date) (scenario : String) (monthIndex : Nat)
    (s : ℚ × ℚ × ℚ × ℚ) (account : Account) : ℚ × ℚ × ℚ × ℚ :=
  let currentBalance := calculateBalance accounts transactions account.id now
  let monthlyRate := account.apr / 100 / 12
  let baseMinPayment := max (currentBalance * 0.02) 25
  let monthlyPayment := scenarioPayment scenario baseMinPayment currentBalance
  let r := (simStep monthlyRate monthlyPayment)^[monthIndex] (currentBalance, s.2.1)
  (s.1 + r.1, r.2, s.2.2.1 + baseMinPayment,
    s.2.2.2 + (monthlyPayment - baseMinPayment))

/-- The eligible accounts of `calculateProjections`:
matching the filter, of credit type, with positive present balance. -/
def relevantAccounts (accounts : List Account) (transactions : List Transaction)
    (now : Date) (selectedAccount : String) : List Account :=
  accounts.filter (fun a =>
    (selectedAccount == "all" || a.id == selectedAccount) &&
    a.accountType == "credit" &&
    decide (0 < calculateBalance accounts transactions a.id now))

/-- The row produced for one `monthIndex` of `calculateProjections`. -/
def projectionRow (accounts : List Account) (transactions : List Transaction)
    (now : Date) (scenario : String) (relevant : List Account)
    (monthIndex : Nat) : MonthlyProjection :=
  let acc := relevant.foldl (projStep accounts transactions now scenario monthIndex)
    (0, 0, 0, 0)
  { month := monthLabel monthIndex
    balance := acc.1
    interest := acc.2.1
    minimumPayment := acc.2.2.1
    additionalPayment := acc.2.2.2
    totalPayment := acc.2.2.1 + acc.2.2.2 }

/-- `calculateProjections(scenario)` of the source, with the UI state
(`timeframe`, `selectedAccount`) and the implicit "now" made explicit
parameters.  The source maps over the `months + 1` labels with index; here
the map runs over the indices `0 .. months` and each row carries its label. -/
def calculateProjections (accounts : List Account)
    (transactions : List Transaction) (now : Date) (selectedAccount : String)
    (timeframe : String) (scenario : String) : List MonthlyProjection :=
  let months := monthsOfTimeframe timeframe
  let relevant := relevantAccounts accounts transactions now selectedAccount
  (List.range (months + 1)).map
    (projectionRow accounts transactions now scenario relevant)

/-! ### Abbreviations for the per-account quantities of a projection row -/

/-- The present balance an eligible account enters the simulation with. -/
def accountBalance (accounts : List Account) (transactions : List Transaction)
    (now : Date) (a : Account) : ℚ :=
  calculateBalance accounts transactions a.id now

/-- `baseMinPayment = Math.max(currentBalance * 0.02, 25)`. -/
def accountBaseMin (accounts : List Account) (transactions : List Transaction)
    (now : Date) (a : Account) : ℚ :=
  max (accountBalance accounts transactions now a * 0.02) 25

/-- The per-account monthly payment chosen by the scenario. -/
def accountPayment (accounts : List Account) (transactions : List Transaction)
    (now : Date) (scenario : String) (a : Account) : ℚ :=
  scenarioPayment scenario (accountBaseMin accounts transactions now a)
    (accountBalance accounts transactions now a)

/-- Replace any transaction type other than the literal `"credit"` by
`"debit"`; used to state that the engine treats all such types alike. -/
def normaliseType (t : Transaction) : Transaction :=
  if t.type = "credit" then t else { t with type := "debit" }

/-! ### Helper lemmas -/

theorem Date.leb_iff (a b : Date) :
    Date.leb a b = true ↔ a.ym < b.ym ∨ (a.ym = b.ym ∧ a.sub ≤ b.sub) := by
  simp [Date.leb]

theorem minDateFold_spec (ds : List Date) : ∀ d : Date,
    (minDateFold d ds = d ∨ minDateFold d ds ∈ ds) ∧
    Date.leb (minDateFold d ds) d = true ∧
    ∀ x ∈ ds, Date.leb (minDateFold d ds) x = true := by
  induction ds with
  | nil =>
    intro d
    refine ⟨Or.inl rfl, ?_, by simp⟩
    show Date.leb d d = true
    rw [Date.leb_iff]
    omega
  | cons x xs ih =>
    intro d
    have hunf : minDateFold d (x :: xs) = minDateFold (Date.minD d x) xs := rfl
    rw [hunf]
    obtain ⟨hmem, hled, hall⟩ := ih (Date.minD d x)
    have hdx : (Date.leb (Date.minD d x) d = true) ∧
        (Date.leb (Date.minD d x) x = true) ∧
        (Date.minD d x = d ∨ Date.minD d x = x) := by
      unfold Date.minD
      split
      · next h =>
        rw [Date.leb_iff] at h ⊢
        exact ⟨by omega, by rw [Date.leb_iff]; tauto, Or.inl rfl⟩
      · next h =>
        rw [Date.leb_iff] at h
        constructor
        · rw [Date.leb_iff]; omega
        · exact ⟨by rw [Date.leb_iff]; omega, Or.inr rfl⟩
    have htrans : ∀ p q r : Date, Date.leb p q = true → Date.leb q r = true →
        Date.leb p r = true := by
      intro p q r h1 h2
      rw [Date.leb_iff] at h1 h2 ⊢
      omega
    refine ⟨?_, htrans _ _ _ hled hdx.1, ?_⟩
    · rcases hmem with h | h
      · rw [h]
        rcases hdx.2.2 with h' | h'
        · exact Or.inl h'
        · exact Or.inr (by rw [h']; exact List.mem_cons_self x xs)
      · exact Or.inr (List.mem_cons_of_mem x h)
    · intro y hy
      rcases List.mem_cons.mp hy with h | h
      · rw [h]
        exact htrans _ _ _ hled hdx.2.1
      · exact hall y h

/-- `earliestDate` really is the earliest: it returns a member of the list
that is `≤` (in timestamp order) every element. -/
theorem earliestDate_spec (l : List Date) (d0 : Date)
    (h : earliestDate l = some d0) :
    d0 ∈ l ∧ ∀ x ∈ l, Date.leb d0 x = true := by
  cases l with
  | nil => simp [earliestDate] at h
  | cons d ds =>
    simp only [earliestDate, Option.some.injEq] at h
    obtain ⟨hmem, hled, hall⟩ := minDateFold_spec ds d
    rw [← h]
    constructor
    · rcases hmem with h' | h'
      · rw [h']
        exact List.mem_cons_self d ds
      · exact List.mem_cons_of_mem d h'
    · intro x hx
      rcases List.mem_cons.mp hx with h' | h'
      · rw [h']
        exact hled
      · exact hall x h'

theorem foldl_add_eq_sum {α : Type} (f : α → ℚ) :
    ∀ (l : List α) (s : ℚ), l.foldl (fun acc a => acc + f a) s = s + (l.map f).sum := by
  intro l
  induction l with
  | nil => simp
  | cons a l ih =>
    intro s
    simp [ih, add_assoc]

theorem txSigned_normaliseType (t : Transaction) :
    txSigned (normaliseType t) = txSigned t := by
  by_cases h : t.type = "credit"
  · unfold normaliseType
    rw [if_pos h]
  · unfold normaliseType
    rw [if_neg h]
    show (if ("debit" : String) = "credit" then t.amount else -t.amount) = txSigned t
    unfold txSigned
    rw [if_neg (by decide), if_neg h]

theorem normaliseType_accountId (t : Transaction) :
    (normaliseType t).accountId = t.accountId := by
  unfold normaliseType
  split <;> rfl

theorem normaliseType_date (t : Transaction) :
    (normaliseType t).date = t.date := by
  unfold normaliseType
  split <;> rfl

theorem relevantTransactions_map_normalise (T : List Transaction)
    (accountId : String) (d : Date) :
    relevantTransactions (T.map normaliseType) accountId d =
      (relevantTransactions T accountId d).map normaliseType := by
  unfold relevantTransactions
  rw [List.filter_map]
  congr 1
  apply List.filter_congr
  intro t _
  simp [Function.comp, normaliseType_accountId, normaliseType_date]

theorem principalBalance_map_normalise (l : List Transaction) :
    principalBalance (l.map normaliseType) = principalBalance l := by
  unfold principalBalance
  rw [List.foldl_map]
  congr 1
  funext s t
  rw [txSigned_normaliseType]

/-! ### Test fixtures -/

def acct1 : Account := ⟨"a", "Card", "credit", some 1000, 12⟩

def acct2 : Account := ⟨"d", "Checking", "debit", none, 5⟩

def acct3 : Account := ⟨"c", "NoLimit", "credit", none, 10⟩

def tx1 : Transaction := ⟨"t1", "a", 500, "credit", ⟨0, 0⟩⟩

def tx2 : Transaction := ⟨"t2", "a", 300, "debit", ⟨0, 0⟩⟩

def tx3 : Transaction := ⟨"t3", "d", 100, "credit", ⟨0, 0⟩⟩

def txOdd : Transaction := ⟨"t4", "a", 70, "transfer", ⟨0, 0⟩⟩

/-! ### Claims about the balance calculator -/

/-- C6: `balanceAsOf` returns 0 for an unknown `accountId`, and returns 0
when no transaction qualifies (matches the account with `date ≤ asOfDate`);
neither case is a fault. -/
theorem balanceAsOf_zero_cases (A : List Account) (T : List Transaction)
    (accountId : String) (d : Date) :
    (A.find? (fun a => a.id == accountId) = none →
      calculateBalance A T accountId d = 0) ∧
    (relevantTransactions T accountId d = [] →
      calculateBalance A T accountId d = 0) := by
  constructor
  · intro h
    unfold calculateBalance
    rw [h]
  · intro h
    unfold calculateBalance
    cases hfind : A.find? (fun a => a.id == accountId) with
    | none => rfl
    | some account =>
      simp only [h, principalBalance, List.foldl_nil]
      rw [if_neg]
      rintro ⟨-, h2, -⟩
      exact absurd h2 (by norm_num)

theorem balanceAsOf_zero_cases_witness :
    List.find? (fun a => a.id == "zz") [acct1] = none ∧
    relevantTransactions [tx3] "a" ⟨0, 0⟩ = [] ∧
    calculateBalance [acct1] [tx1] "zz" ⟨0, 0⟩ = 0 ∧
    calculateBalance [acct1] [tx3] "a" ⟨0, 0⟩ = 0 :=
  ⟨by decide, by decide,
    (balanceAsOf_zero_cases [acct1] [tx1] "zz" ⟨0, 0⟩).1 (by decide),
    (balanceAsOf_zero_cases [acct1] [tx3] "a" ⟨0, 0⟩).2 (by decide)⟩

/-- C7: a debit account gets the raw principal balance, no compounding
regardless of `apr`; a credit account whose principal `P ≤ 0` gets `P`
unmodified. -/
theorem balanceAsOf_no_compounding (A : List Account) (T : List Transaction)
    (accountId : String) (d : Date) (account : Account)
    (hfind : A.find? (fun a => a.id == accountId) = some account) :
    (account.accountType = "debit" →
      calculateBalance A T accountId d =
        principalBalance (relevantTransactions T accountId d)) ∧
    (account.accountType = "credit" →
      principalBalance (relevantTransactions T accountId d) ≤ 0 →
      calculateBalance A T accountId d =
        principalBalance (relevantTransactions T accountId d)) := by
  constructor
  · intro htype
    unfold calculateBalance
    rw [hfind]
    simp only
    rw [if_neg]
    rintro ⟨h1, -, -⟩
    rw [htype] at h1
    exact absurd h1 (by decide)
  · intro _ hP
    unfold calculateBalance
    rw [hfind]
    simp only
    rw [if_neg]
    rintro ⟨-, h2, -⟩
    exact absurd hP (not_le.mpr h2)

theorem tx2_principal :
    principalBalance (relevantTransactions [tx2] "a" ⟨1, 0⟩) = -300 := by
  simp +decide [principalBalance, relevantTransactions, tx2, txSigned, Date.leb]

theorem balanceAsOf_no_compounding_witness :
    List.find? (fun a => a.id == "d") [acct2] = some acct2 ∧
    acct2.accountType = "debit" ∧
    List.find? (fun a => a.id == "a") [acct1] = some acct1 ∧
    acct1.accountType = "credit" ∧
    principalBalance (relevantTransactions [tx2] "a" ⟨1, 0⟩) ≤ 0 ∧
    calculateBalance [acct2] [tx3] "d" ⟨1, 0⟩ =
      principalBalance (relevantTransactions [tx3] "d" ⟨1, 0⟩) ∧
    calculateBalance [acct1] [tx2] "a" ⟨1, 0⟩ =
      principalBalance (relevantTransactions [tx2] "a" ⟨1, 0⟩) :=
  ⟨by decide, rfl, by decide, rfl, by rw [tx2_principal]; norm_num,
    (balanceAsOf_no_compounding [acct2] [tx3] "d" ⟨1, 0⟩ acct2 (by decide)).1 rfl,
    (balanceAsOf_no_compounding [acct1] [tx2] "a" ⟨1, 0⟩ acct1 (by decide)).2 rfl
      (by rw [tx2_principal]; norm_num)⟩

/-- C8: a transaction whose `type` is anything other than `'credit'` is
handled exactly like a `'debit'` one — its amount is subtracted — so
normalising every non-credit type to `'debit'` leaves every balance query
unchanged, with no rejection. -/
theorem nonCredit_type_is_debit (A : List Account) (T : List Transaction)
    (accountId : String) (d : Date) :
    (∀ t : Transaction, t.type ≠ "credit" → txSigned t = -t.amount) ∧
    calculateBalance A (T.map normaliseType) accountId d =
      calculateBalance A T accountId d := by
  constructor
  · intro t ht
    unfold txSigned
    rw [if_neg ht]
  · unfold calculateBalance
    cases A.find? (fun a => a.id == accountId) with
    | none => rfl
    | some account =>
      have hcomp : (Transaction.date ∘ normaliseType) = Transaction.date :=
        funext normaliseType_date
      simp only [relevantTransactions_map_normalise, principalBalance_map_normalise,
        List.map_map, hcomp]

theorem nonCredit_type_is_debit_witness :
    txOdd.type ≠ "credit" ∧
    txSigned txOdd = -txOdd.amount ∧
    calculateBalance [acct1] ([tx1, txOdd].map normaliseType) "a" ⟨0, 0⟩ =
      calculateBalance [acct1] [tx1, txOdd] "a" ⟨0, 0⟩ :=
  ⟨by decide,
    (nonCredit_type_is_debit [acct1] [tx1, txOdd] "a" ⟨0, 0⟩).1 txOdd (by decide),
    (nonCredit_type_is_debit [acct1] [tx1, txOdd] "a" ⟨0, 0⟩).2⟩

/-- C1: for a credit account with positive principal balance and positive
`apr`, `balanceAsOf` returns the principal multiplied by
`(1 + apr/100/12) ^ n`, `n` the whole-month difference from the earliest
qualifying transaction's date to `asOfDate` (0 with no qualifying
transactions). -/
theorem balanceAsOf_credit_compounds (A : List Account) (T : List Transaction)
    (accountId : String) (asOf : Date) (account : Account)
    (hfind : A.find? (fun a => a.id == accountId) = some account)
    (htype : account.accountType = "credit")
    (hpos : 0 < principalBalance (relevantTransactions T accountId asOf))
    (hapr : 0 < account.apr) :
    calculateBalance A T accountId asOf =
      principalBalance (relevantTransactions T accountId asOf) *
        (1 + account.apr / 100 / 12) ^
          (match earliestDate
              ((relevantTransactions T accountId asOf).map Transaction.date) with
            | none => (0 : Int)
            | some d0 => monthsDifference d0 asOf) := by
  unfold calculateBalance
  rw [hfind]
  simp only
  rw [if_pos ⟨htype, hpos, ne_of_gt hapr⟩]

theorem tx1_principal :
    principalBalance (relevantTransactions [tx1] "a" ⟨2, 0⟩) = 500 := by
  simp +decide [principalBalance, relevantTransactions, tx1, txSigned, Date.leb]

theorem balanceAsOf_credit_compounds_witness :
    List.find? (fun a => a.id == "a") [acct1] = some acct1 ∧
    acct1.accountType = "credit" ∧
    0 < principalBalance (relevantTransactions [tx1] "a" ⟨2, 0⟩) ∧
    0 < acct1.apr ∧
    calculateBalance [acct1] [tx1] "a" ⟨2, 0⟩ =
      principalBalance (relevantTransactions [tx1] "a" ⟨2, 0⟩) *
        (1 + acct1.apr / 100 / 12) ^
          (match earliestDate
              ((relevantTransactions [tx1] "a" ⟨2, 0⟩).map Transaction.date) with
            | none => (0 : Int)
            | some d0 => monthsDifference d0 ⟨2, 0⟩) :=
  ⟨by decide, rfl, by rw [tx1_principal]; norm_num,
    by rw [show acct1.apr = (12 : ℚ) from rfl]; norm_num,
    balanceAsOf_credit_compounds [acct1] [tx1] "a" ⟨2, 0⟩ acct1 (by decide) rfl
      (by rw [tx1_principal]; norm_num)
      (by rw [show acct1.apr = (12 : ℚ) from rfl]; norm_num)⟩

/-! ### Claims about the utilization aggregator -/

/-- C4: `creditUtilizationPercent` sums the credit accounts' limits to
`totalLimit`; it returns 0 when `totalLimit = 0`, and otherwise
`(totalUsed / totalLimit) × 100` where `totalUsed` sums
`max(0, balanceAsOf(account))` over the same accounts (a non-positive
balance contributes 0, never a negative amount). -/
theorem creditUtilization_formula (A : List Account) (T : List Transaction)
    (now : Date) :
    (((A.filter (fun a => a.accountType == "credit")).map limitContribution).sum = 0 →
      calculateCreditUtilization A T now = 0) ∧
    (((A.filter (fun a => a.accountType == "credit")).map limitContribution).sum ≠ 0 →
      calculateCreditUtilization A T now =
        ((A.filter (fun a => a.accountType == "credit")).map
            (fun a => max 0 (calculateBalance A T a.id now))).sum /
          ((A.filter (fun a => a.accountType == "credit")).map limitContribution).sum
          * 100) := by
  unfold calculateCreditUtilization
  simp only [foldl_add_eq_sum limitContribution,
    foldl_add_eq_sum (fun a : Account => max 0 (calculateBalance A T a.id now)),
    zero_add]
  constructor
  · intro h
    rw [if_pos h]
  · intro h
    rw [if_neg h]

theorem creditUtilization_formula_witness :
    (((List.filter (fun a => a.accountType == "credit") [acct2]).map
        limitContribution).sum = 0 ∧
      calculateCreditUtilization [acct2] [tx3] ⟨0, 0⟩ = 0) ∧
    (((List.filter (fun a => a.accountType == "credit") [acct1]).map
        limitContribution).sum ≠ 0 ∧
      calculateCreditUtilization [acct1] [tx1] ⟨0, 0⟩ =
        ((List.filter (fun a => a.accountType == "credit") [acct1]).map
            (fun a => max 0 (calculateBalance [acct1] [tx1] a.id ⟨0, 0⟩))).sum /
          ((List.filter (fun a => a.accountType == "credit") [acct1]).map
            limitContribution).sum * 100) :=
  ⟨⟨by decide, (creditUtilization_formula [acct2] [tx3] ⟨0, 0⟩).1 (by decide)⟩,
    ⟨by simp +decide [acct1, limitContribution],
      (creditUtilization_formula [acct1] [tx1] ⟨0, 0⟩).2
        (by simp +decide [acct1, limitContribution])⟩⟩

/-- C10: `creditUtilizationPercent` is total on credit accounts with an
absent (or zero, i.e. falsy) `limit`: such an account contributes 0 to
`totalLimit`, and a snapshot whose credit accounts all lack a limit
yields 0. -/
theorem creditUtilization_missing_limits (A : List Account)
    (T : List Transaction) (now : Date)
    (h : ∀ a ∈ A, a.accountType = "credit" → a.limit = none ∨ a.limit = some 0) :
    (∀ a ∈ A, a.accountType = "credit" → limitContribution a = 0) ∧
    calculateCreditUtilization A T now = 0 := by
  have hz : ∀ a ∈ A, a.accountType = "credit" → limitContribution a = 0 := by
    intro a ha htype
    rcases h a ha htype with h' | h' <;> simp [limitContribution, h']
  refine ⟨hz, ?_⟩
  unfold calculateCreditUtilization
  simp only [foldl_add_eq_sum limitContribution, zero_add]
  rw [if_pos]
  apply List.sum_eq_zero
  intro x hx
  rcases List.mem_map.mp hx with ⟨a, ha, rfl⟩
  rcases List.mem_filter.mp ha with ⟨haA, hpred⟩
  exact hz a haA (by simpa using hpred)

theorem creditUtilization_missing_limits_witness :
    (∀ a ∈ [acct3], a.accountType = "credit" →
      a.limit = none ∨ a.limit = some 0) ∧
    limitContribution acct3 = 0 ∧
    calculateCreditUtilization [acct3] [tx1] ⟨0, 0⟩ = 0 :=
  ⟨by decide,
    (creditUtilization_missing_limits [acct3] [tx1] ⟨0, 0⟩ (by decide)).1 acct3
      (List.mem_cons_self acct3 []) rfl,
    (creditUtilization_missing_limits [acct3] [tx1] ⟨0, 0⟩ (by decide)).2⟩

/-! ### Structure of a projection row -/

theorem projStep_minimum (A : List Account) (T : List Transaction) (now : Date)
    (sc : String) (n : Nat) (s : ℚ × ℚ × ℚ × ℚ) (a : Account) :
    (projStep A T now sc n s a).2.2.1 = s.2.2.1 + accountBaseMin A T now a := rfl

theorem projStep_additional (A : List Account) (T : List Transaction) (now : Date)
    (sc : String) (n : Nat) (s : ℚ × ℚ × ℚ × ℚ) (a : Account) :
    (projStep A T now sc n s a).2.2.2 =
      s.2.2.2 + (accountPayment A T now sc a - accountBaseMin A T now a) := rfl

theorem projStep_zero_balance (A : List Account) (T : List Transaction) (now : Date)
    (sc : String) (s : ℚ × ℚ × ℚ × ℚ) (a : Account) :
    (projStep A T now sc 0 s a).1 = s.1 + accountBalance A T now a := rfl

theorem projStep_zero_interest (A : List Account) (T : List Transaction) (now : Date)
    (sc : String) (s : ℚ × ℚ × ℚ × ℚ) (a : Account) :
    (projStep A T now sc 0 s a).2.1 = s.2.1 := rfl

theorem foldl_projStep_payments (A : List Account) (T : List Transaction)
    (now : Date) (sc : String) (n : Nat) :
    ∀ (l : List Account) (s : ℚ × ℚ × ℚ × ℚ),
      (l.foldl (projStep A T now sc n) s).2.2.1 =
        s.2.2.1 + (l.map (accountBaseMin A T now)).sum ∧
      (l.foldl (projStep A T now sc n) s).2.2.2 =
        s.2.2.2 + (l.map
          (fun a => accountPayment A T now sc a - accountBaseMin A T now a)).sum := by
  intro l
  induction l with
  | nil => simp
  | cons a l ih =>
    intro s
    rw [List.foldl_cons]
    obtain ⟨h1, h2⟩ := ih (projStep A T now sc n s a)
    constructor
    · rw [h1, projStep_minimum]
      simp [add_assoc]
    · rw [h2, projStep_additional]
      simp [add_assoc]

theorem foldl_projStep_zero (A : List Account) (T : List Transaction)
    (now : Date) (sc : String) :
    ∀ (l : List Account) (s : ℚ × ℚ × ℚ × ℚ),
      (l.foldl (projStep A T now sc 0) s).1 =
        s.1 + (l.map (accountBalance A T now)).sum ∧
      (l.foldl (projStep A T now sc 0) s).2.1 = s.2.1 := by
  intro l
  induction l with
  | nil => simp
  | cons a l ih =>
    intro s
    rw [List.foldl_cons]
    obtain ⟨h1, h2⟩ := ih (projStep A T now sc 0 s a)
    constructor
    · rw [h1, projStep_zero_balance]
      simp [add_assoc]
    · rw [h2, projStep_zero_interest]

theorem projectionRow_minimumPayment (A : List Account) (T : List Transaction)
    (now : Date) (sc : String) (rel : List Account) (n : Nat) :
    (projectionRow A T now sc rel n).minimumPayment =
      (rel.map (accountBaseMin A T now)).sum := by
  unfold projectionRow
  simp only
  rw [(foldl_projStep_payments A T now sc n rel (0, 0, 0, 0)).1, zero_add]

theorem projectionRow_additionalPayment (A : List Account) (T : List Transaction)
    (now : Date) (sc : String) (rel : List Account) (n : Nat) :
    (projectionRow A T now sc rel n).additionalPayment =
      (rel.map (fun a => accountPayment A T now sc a - accountBaseMin A T now a)).sum := by
  unfold projectionRow
  simp only
  rw [(foldl_projStep_payments A T now sc n rel (0, 0, 0, 0)).2, zero_add]

theorem projectionRow_totalPayment (A : List Account) (T : List Transaction)
    (now : Date) (sc : String) (rel : List Account) (n : Nat) :
    (projectionRow A T now sc rel n).totalPayment =
      (rel.map (accountBaseMin A T now)).sum +
        (rel.map (fun a => accountPayment A T now sc a - accountBaseMin A T now a)).sum := by
  unfold projectionRow
  simp only
  rw [(foldl_projStep_payments A T now sc n rel (0, 0, 0, 0)).1,
    (foldl_projStep_payments A T now sc n rel (0, 0, 0, 0)).2, zero_add, zero_add]

theorem projectionRow_zero_row (A : List Account) (T : List Transaction)
    (now : Date) (sc : String) (rel : List Account) :
    (projectionRow A T now sc rel 0).balance =
      (rel.map (accountBalance A T now)).sum ∧
    (projectionRow A T now sc rel 0).interest = 0 := by
  unfold projectionRow
  simp only
  constructor
  · rw [(foldl_projStep_zero A T now sc rel (0, 0, 0, 0)).1, zero_add]
  · rw [(foldl_projStep_zero A T now sc rel (0, 0, 0, 0)).2]

theorem calculateProjections_getElem (A : List Account) (T : List Transaction)
    (now : Date) (sel tf sc : String) (i : Nat) :
    (calculateProjections A T now sel tf sc)[i]? =
      if i < monthsOfTimeframe tf + 1 then
        some (projectionRow A T now sc (relevantAccounts A T now sel) i)
      else none := by
  unfold calculateProjections
  simp only [List.getElem?_map]
  split
  · next h =>
    rw [List.getElem?_range h]
    rfl
  · next h =>
    rw [List.getElem?_eq_none]
    · rfl
    · rw [List.length_range]
      omega

/-! ### Claims about the projection engine -/

/-- C2: `project` returns exactly `timeframeMonths + 1` rows (where
`timeframeMonths ∈ {6, 12, 24}`), and with no eligible account the fully
produced sequence carries all-zero balance, interest, minimumPayment,
additionalPayment and totalPayment in every row. -/
theorem project_length_and_empty (A : List Account) (T : List Transaction)
    (now : Date) (sel tf sc : String) :
    ((calculateProjections A T now sel tf sc).length = monthsOfTimeframe tf + 1 ∧
      (monthsOfTimeframe tf = 6 ∨ monthsOfTimeframe tf = 12 ∨
        monthsOfTimeframe tf = 24)) ∧
    (relevantAccounts A T now sel = [] →
      ∀ row ∈ calculateProjections A T now sel tf sc,
        row.balance = 0 ∧ row.interest = 0 ∧ row.minimumPayment = 0 ∧
        row.additionalPayment = 0 ∧ row.totalPayment = 0) := by
  constructor
  · constructor
    · unfold calculateProjections
      simp
    · unfold monthsOfTimeframe
      split
      · exact Or.inl rfl
      · split
        · exact Or.inr (Or.inl rfl)
        · exact Or.inr (Or.inr rfl)
  · intro hrel row hrow
    unfold calculateProjections at hrow
    simp only [List.mem_map] at hrow
    obtain ⟨i, -, hi⟩ := hrow
    rw [hrel] at hi
    rw [← hi]
    exact ⟨rfl, rfl, rfl, rfl, zero_add 0⟩

theorem project_length_and_empty_witness :
    (calculateProjections [] [] ⟨0, 0⟩ "all" "6m" "current").length =
      monthsOfTimeframe "6m" + 1 ∧
    relevantAccounts ([] : List Account) [] ⟨0, 0⟩ "all" = [] ∧
    projectionRow [] [] ⟨0, 0⟩ "current" [] 0 ∈
      calculateProjections [] [] ⟨0, 0⟩ "all" "6m" "current" ∧
    ((projectionRow [] [] ⟨0, 0⟩ "current" [] 0).balance = 0 ∧
      (projectionRow [] [] ⟨0, 0⟩ "current" [] 0).interest = 0 ∧
      (projectionRow [] [] ⟨0, 0⟩ "current" [] 0).minimumPayment = 0 ∧
      (projectionRow [] [] ⟨0, 0⟩ "current" [] 0).additionalPayment = 0 ∧
      (projectionRow [] [] ⟨0, 0⟩ "current" [] 0).totalPayment = 0) :=
  ⟨(project_length_and_empty [] [] ⟨0, 0⟩ "all" "6m" "current").1.1, rfl,
    List.getElem?_mem (rfl :
      (calculateProjections [] [] ⟨0, 0⟩ "all" "6m" "current")[0]? =
        some (projectionRow [] [] ⟨0, 0⟩ "current" [] 0)),
    (project_length_and_empty [] [] ⟨0, 0⟩ "all" "6m" "current").2 rfl _
      (List.getElem?_mem (rfl :
        (calculateProjections [] [] ⟨0, 0⟩ "all" "6m" "current")[0]? =
          some (projectionRow [] [] ⟨0, 0⟩ "current" [] 0)))⟩

/-- C3: row 0 of any projection has `balance` equal to the sum of
`balanceAsOf` over the eligible accounts and `interest = 0`. -/
theorem project_row_zero (A : List Account) (T : List Transaction)
    (now : Date) (sel tf sc : String) :
    ∃ r, (calculateProjections A T now sel tf sc)[0]? = some r ∧
      r.balance = ((relevantAccounts A T now sel).map
        (fun a => calculateBalance A T a.id now)).sum ∧
      r.interest = 0 := by
  refine ⟨projectionRow A T now sc (relevantAccounts A T now sel) 0, ?_, ?_, ?_⟩
  · rw [calculateProjections_getElem, if_pos (Nat.succ_pos _)]
  · rw [(projectionRow_zero_row A T now sc (relevantAccounts A T now sel)).1]
    rfl
  · exact (projectionRow_zero_row A T now sc (relevantAccounts A T now sel)).2

/-- C9: within one `project` call, the `minimumPayment`,
`additionalPayment` and `totalPayment` fields are identical in every row,
because each row recomputes each eligible account's payment from the same
present `balanceAsOf`. -/
theorem project_payments_constant (A : List Account) (T : List Transaction)
    (now : Date) (sel tf sc : String) (i j : Nat) (ri rj : MonthlyProjection)
    (hi : (calculateProjections A T now sel tf sc)[i]? = some ri)
    (hj : (calculateProjections A T now sel tf sc)[j]? = some rj) :
    ri.minimumPayment = rj.minimumPayment ∧
    ri.additionalPayment = rj.additionalPayment ∧
    ri.totalPayment = rj.totalPayment := by
  rw [calculateProjections_getElem] at hi hj
  by_cases h1 : i < monthsOfTimeframe tf + 1
  · by_cases h2 : j < monthsOfTimeframe tf + 1
    · rw [if_pos h1] at hi
      rw [if_pos h2] at hj
      injection hi with hi
      injection hj with hj
      rw [← hi, ← hj]
      refine ⟨?_, ?_, ?_⟩
      · rw [projectionRow_minimumPayment, projectionRow_minimumPayment]
      · rw [projectionRow_additionalPayment, projectionRow_additionalPayment]
      · rw [projectionRow_totalPayment, projectionRow_totalPayment]
    · rw [if_neg h2] at hj
      cases hj
  · rw [if_neg h1] at hi
    cases hi

theorem project_payments_constant_witness :
    (calculateProjections [acct1] [tx1] ⟨0, 0⟩ "all" "6m" "current")[0]? =
      some (projectionRow [acct1] [tx1] ⟨0, 0⟩ "current"
        (relevantAccounts [acct1] [tx1] ⟨0, 0⟩ "all") 0) ∧
    (calculateProjections [acct1] [tx1] ⟨0, 0⟩ "all" "6m" "current")[1]? =
      some (projectionRow [acct1] [tx1] ⟨0, 0⟩ "current"
        (relevantAccounts [acct1] [tx1] ⟨0, 0⟩ "all") 1) ∧
    ((projectionRow [acct1] [tx1] ⟨0, 0⟩ "current"
        (relevantAccounts [acct1] [tx1] ⟨0, 0⟩ "all") 0).minimumPayment =
      (projectionRow [acct1] [tx1] ⟨0, 0⟩ "current"
        (relevantAccounts [acct1] [tx1] ⟨0, 0⟩ "all") 1).minimumPayment ∧
      (projectionRow [acct1] [tx1] ⟨0, 0⟩ "current"
        (relevantAccounts [acct1] [tx1] ⟨0, 0⟩ "all") 0).additionalPayment =
      (projectionRow [acct1] [tx1] ⟨0, 0⟩ "current"
        (relevantAccounts [acct1] [tx1] ⟨0, 0⟩ "all") 1).additionalPayment ∧
      (projectionRow [acct1] [tx1] ⟨0, 0⟩ "current"
        (relevantAccounts [acct1] [tx1] ⟨0, 0⟩ "all") 0).totalPayment =
      (projectionRow [acct1] [tx1] ⟨0, 0⟩ "current"
        (relevantAccounts [acct1] [tx1] ⟨0, 0⟩ "all") 1).totalPayment) :=
  ⟨rfl, rfl,
    project_payments_constant [acct1] [tx1] ⟨0, 0⟩ "all" "6m" "current" 0 1 _ _
      rfl rfl⟩

/-- C5: for identical inputs, the `totalPayment` of any row under the
`aggressive` scenario is at least the `totalPayment` of the same-index row
under the `current` scenario. -/
theorem aggressive_totalPayment_ge (A : List Account) (T : List Transaction)
    (now : Date) (sel tf : String) (i : Nat) (ra rc : MonthlyProjection)
    (ha : (calculateProjections A T now sel tf "aggressive")[i]? = some ra)
    (hc : (calculateProjections A T now sel tf "current")[i]? = some rc) :
    rc.totalPayment ≤ ra.totalPayment := by
  rw [calculateProjections_getElem] at ha hc
  by_cases h : i < monthsOfTimeframe tf + 1
  · rw [if_pos h] at ha hc
    injection ha with ha
    injection hc with hc
    rw [← ha, ← hc, projectionRow_totalPayment, projectionRow_totalPayment]
    have hcur : ∀ a : Account,
        accountPayment A T now "current" a = accountBaseMin A T now a := by
      intro a
      unfold accountPayment scenarioPayment
      rw [if_neg (by decide), if_neg (by decide)]
    have hsum0 : ((relevantAccounts A T now sel).map
        (fun a => accountPayment A T now "current" a -
          accountBaseMin A T now a)).sum = 0 := by
      apply List.sum_eq_zero
      intro x hx
      rcases List.mem_map.mp hx with ⟨a, -, rfl⟩
      rw [hcur a]
      ring
    have hnn : 0 ≤ ((relevantAccounts A T now sel).map
        (fun a => accountPayment A T now "aggressive" a -
          accountBaseMin A T now a)).sum := by
      apply List.sum_nonneg
      intro x hx
      rcases List.mem_map.mp hx with ⟨a, -, rfl⟩
      unfold accountPayment scenarioPayment
      rw [if_pos rfl]
      exact sub_nonneg.mpr (le_max_left _ _)
    rw [hsum0, add_zero]
    linarith
  · rw [if_neg h] at ha
    cases ha

theorem aggressive_totalPayment_ge_witness :
    (calculateProjections [acct1] [tx1] ⟨0, 0⟩ "all" "6m" "aggressive")[1]? =
      some (projectionRow [acct1] [tx1] ⟨0, 0⟩ "aggressive"
        (relevantAccounts [acct1] [tx1] ⟨0, 0⟩ "all") 1) ∧
    (calculateProjections [acct1] [tx1] ⟨0, 0⟩ "all" "6m" "current")[1]? =
      some (projectionRow [acct1] [tx1] ⟨0, 0⟩ "current"
        (relevantAccounts [acct1] [tx1] ⟨0, 0⟩ "all") 1) ∧
    (projectionRow [acct1] [tx1] ⟨0, 0⟩ "current"
        (relevantAccounts [acct1] [tx1] ⟨0, 0⟩ "all") 1).totalPayment ≤
      (projectionRow [acct1] [tx1] ⟨0, 0⟩ "aggressive"
        (relevantAccounts [acct1] [tx1] ⟨0, 0⟩ "all") 1).totalPayment :=
  ⟨rfl, rfl,
    aggressive_totalPayment_ge [acct1] [tx1] ⟨0, 0⟩ "all" "6m" 1 _ _ rfl rfl⟩

end TrackBalances
